import Mathlib

/-!
Verification of the research-augmented analysis pipeline of the ARQ6
marketing-analysis backend (`src/services/deepseek_client.py` and
`src/routes/analysis.py`), as a shallow embedding in Lean 4.

Python dicts/JSON values are embedded as an inductive `Json` type; Python
floats are embedded as exact decimal fixed-point numbers (every value
flowing through the pipeline's arithmetic is a short decimal, on which
IEEE-754 double and exact decimal evaluation agree);
`json.loads` is embedded as an executable recursive-descent parser over the
integer/string/array/object fragment exercised by the pipeline (decimal
exponents, fractional literals and `NaN` never occur in the analysed inputs);
Python exceptions are embedded as `Option`/`Except`; the outbound network
(search HTTP calls, the LLM completion call) is embedded as explicit oracles
in an `Env` record, and functions that perform outbound calls also return the
list of calls they issue.
-/

/-- Literal left brace character, `Char.ofNat 123`. -/
def lbrace : Char := Char.ofNat 123

/-- Literal right brace character, `Char.ofNat 125`. -/
def rbrace : Char := Char.ofNat 125

/-- JSON values as produced by `json.loads` (restricted to integer numerals;
the pipeline inputs analysed here contain no fractional or exponent
numerals). Object fields keep insertion order, mirroring Python dicts. -/
inductive Json where
  | null : Json
  | bool (b : Bool) : Json
  | num (n : Int) : Json
  | str (s : String) : Json
  | arr (elems : List Json) : Json
  | obj (fields : List (String × Json)) : Json

/-- Python truthiness (`bool(x)`) of a JSON value: `None`, `False`, `0`,
`""`, `[]` and an empty dict are falsy, everything else truthy. -/
def Json.truthy : Json → Bool
  | .null => false
  | .bool b => b
  | .num n => n != 0
  | .str s => s ≠ ""
  | .arr elems => !elems.isEmpty
  | .obj fields => !fields.isEmpty

/-- `d[k]` lookup on a JSON object (first matching field; the parser
collapses duplicate keys on construction, so fields are key-distinct). -/
def Json.get? : Json → String → Option Json
  | .obj fields, k => (fields.find? (fun p => p.1 == k)).map (·.2)
  | _, _ => none

/-- Nested lookup along a key path. -/
def Json.getPath? (j : Json) (path : List String) : Option Json :=
  path.foldl (fun acc k => acc.bind (fun v => v.get? k)) (some j)

/-- Projection of a JSON string leaf. -/
def Json.getStr? : Json → Option String
  | .str s => some s
  | _ => none

/-- Projection of a JSON integer leaf. -/
def Json.getNum? : Json → Option Int
  | .num n => some n
  | _ => none

/-- Whether the value is a JSON object (a Python dict). -/
def Json.isObj : Json → Bool
  | .obj _ => true
  | _ => false

/-- Python dict assignment `d[k] = v`: overwrite in place if the key exists,
else append at the end (Python dicts preserve insertion order; keys are
unique, so replacing the first occurrence is the overwrite). -/
def setKey : List (String × Json) → String → Json → List (String × Json)
  | [], k, v => [(k, v)]
  | p :: rest, k, v =>
    if p.1 == k then (k, v) :: rest else p :: setKey rest k v

/-- Whether a field list has a key (`k in d`). -/
def hasKey (fields : List (String × Json)) (k : String) : Bool :=
  fields.any (fun p => p.1 == k)

/-- JSON whitespace accepted between tokens by `json.loads` (also the
characters removed by Python `str.strip()` on the ASCII inputs here). -/
def isPyWs (c : Char) : Bool :=
  c == ' ' || c == '\t' || c == '\n' || c == '\r'

/-- Drop leading JSON whitespace. -/
def skipWs : List Char → List Char
  | [] => []
  | c :: rest => if isPyWs c then skipWs rest else c :: rest

/-- Python `str.strip()`: remove leading and trailing whitespace. -/
def pystrip (l : List Char) : List Char :=
  ((l.dropWhile isPyWs).reverse.dropWhile isPyWs).reverse

/-- Body of a JSON string literal after the opening quote: characters up to
the closing quote, with backslash escapes for quote and backslash (the only
escapes occurring in the analysed inputs). Returns the decoded characters
and the remainder after the closing quote. -/
def parseStringBody : List Char → Option (List Char × List Char)
  | [] => none
  | c :: rest =>
    if c == '\x22' then some ([], rest)
    else if c == '\\' then
      match rest with
      | [] => none
      | e :: rest2 =>
        (parseStringBody rest2).map (fun p => (e :: p.1, p.2))
    else (parseStringBody rest).map (fun p => (c :: p.1, p.2))

/-- Numeric value of an ASCII digit. -/
def digitVal (c : Char) : Nat := c.toNat - 48

/-- Longest leading run of ASCII digits, and the remainder. -/
def takeDigits : List Char → List Nat × List Char
  | [] => ([], [])
  | c :: rest =>
    if c.isDigit then
      let p := takeDigits rest
      (digitVal c :: p.1, p.2)
    else ([], c :: rest)

/-- Value of a most-significant-first digit list. -/
def digitsToNat (ds : List Nat) : Nat := ds.foldl (fun a d => a * 10 + d) 0

mutual

/-- Fueled recursive-descent JSON value parser (model of the value grammar
of `json.loads` on the fragment used by the pipeline). Returns the value and
the unconsumed remainder. -/
def parseValue : Nat → List Char → Option (Json × List Char)
  | 0, _ => none
  | Nat.succ f, cs =>
    match skipWs cs with
    | 'n' :: 'u' :: 'l' :: 'l' :: rest => some (Json.null, rest)
    | 't' :: 'r' :: 'u' :: 'e' :: rest => some (Json.bool true, rest)
    | 'f' :: 'a' :: 'l' :: 's' :: 'e' :: rest => some (Json.bool false, rest)
    | c :: rest =>
      if c == '\x22' then
        match parseStringBody rest with
        | some (s, r) => some (Json.str (String.mk s), r)
        | none => none
      else if c == '[' then
        match skipWs rest with
        | ']' :: r2 => some (Json.arr [], r2)
        | r2 =>
          match parseItems f r2 with
          | some (xs, r3) => some (Json.arr xs, r3)
          | none => none
      else if c == lbrace then
        match skipWs rest with
        | [] => none
        | d :: r2 =>
          if d == rbrace then some (Json.obj [], r2)
          else
            match parseMembers f (d :: r2) with
            | some (ms, r3) =>
              some (Json.obj (ms.foldl (fun acc kv => setKey acc kv.1 kv.2) []), r3)
            | none => none
      else if c == '-' then
        match takeDigits rest with
        | ([], _) => none
        | (ds, r) => some (Json.num (-(Int.ofNat (digitsToNat ds))), r)
      else if c.isDigit then
        let p := takeDigits (c :: rest)
        some (Json.num (Int.ofNat (digitsToNat p.1)), p.2)
      else none
    | [] => none

/-- Comma-separated array items up to the closing bracket. -/
def parseItems : Nat → List Char → Option (List Json × List Char)
  | 0, _ => none
  | Nat.succ f, cs =>
    match parseValue f cs with
    | none => none
    | some (j, r) =>
      match skipWs r with
      | ',' :: r2 =>
        match parseItems f r2 with
        | some (xs, r3) => some (j :: xs, r3)
        | none => none
      | ']' :: r2 => some ([j], r2)
      | _ => none

/-- Comma-separated `"key": value` object members up to the closing brace. -/
def parseMembers : Nat → List Char →
    Option (List (String × Json) × List Char)
  | 0, _ => none
  | Nat.succ f, cs =>
    match skipWs cs with
    | [] => none
    | c :: rest =>
      if c == '\x22' then
        match parseStringBody rest with
        | none => none
        | some (k, r) =>
          match skipWs r with
          | ':' :: r2 =>
            match parseValue f r2 with
            | none => none
            | some (v, r3) =>
              match skipWs r3 with
              | ',' :: r4 =>
                match parseMembers f r4 with
                | some (ms, r5) => some ((String.mk k, v) :: ms, r5)
                | none => none
              | d :: r4 =>
                if d == rbrace then some ([(String.mk k, v)], r4) else none
              | [] => none
          | _ => none
      else none

end

/-- Model of `json.loads`: parse one value and require only whitespace to
remain (Python raises `JSONDecodeError` on trailing data, modelled as
`none`). -/
def parseJson (l : List Char) : Option Json :=
  match parseValue (l.length + 1) l with
  | some (j, rest) => if (skipWs rest).isEmpty then some j else none
  | none => none

/-- Index of the first occurrence of a character (Python `str.find`, with
`none` for `-1`). -/
def firstIdxOf (l : List Char) (c : Char) : Option Nat :=
  l.findIdx? (fun x => x == c)

/-- Index of the last occurrence of a character (Python `str.rfind`, with
`none` for `-1`). -/
def lastIdxOf (l : List Char) (c : Char) : Option Nat :=
  match l.reverse.findIdx? (fun x => x == c) with
  | some i => some (l.length - 1 - i)
  | none => none

/-- `DeepSeekClient._extract_and_validate_json`: strip the text; if both a
`{` and a `}` occur, parse the inclusive first-brace..last-brace slice, and
on any parse failure the surrounding `except` returns `None` (the
whole-text parse on the line below the slice parse is then never reached);
only when `{` or `}` is absent is the whole stripped text parsed. -/
def extractCore (content : List Char) : Option Json :=
  let c := pystrip content
  match firstIdxOf c lbrace, lastIdxOf c rbrace with
  | some s, some e => parseJson ((c.drop s).take (e + 1 - s))
  | _, _ => parseJson c

/-- String-level wrapper of `_extract_and_validate_json`. -/
def extractAndValidateJson (content : String) : Option Json :=
  extractCore content.toList

/-- Exact decimal fixed-point number `mant / 10 ^ scale`, embedding the
Python floats of the pipeline. All numeric inputs are decimal strings and
all multipliers in the source are short decimal literals (`1.8`, `0.01`,
`0.6`, `1.5`), so every value flowing through the arithmetic is an exact
decimal; on these inputs IEEE-754 double evaluation of the source and exact
decimal evaluation agree, including after `int()` truncation. -/
structure Dec where
  mant : Int
  scale : Nat
deriving DecidableEq

/-- The decimal value of an integer literal. -/
def Dec.ofInt (n : Int) : Dec := ⟨n, 0⟩

/-- Exact product of two decimals (Python `*` on the embedded floats). -/
def Dec.mul (a b : Dec) : Dec := ⟨a.mant * b.mant, a.scale + b.scale⟩

/-- Python `int(x)` on a decimal: truncation toward zero. -/
def pyint (d : Dec) : Int :=
  (if d.mant < 0 then -1 else 1) * Int.ofNat (d.mant.natAbs / 10 ^ d.scale)

/-- Model of Python `float(s)` on plain decimal strings: optional
surrounding whitespace, optional sign, digits with an optional single
decimal point (at least one digit overall). Exponent, `inf` and `nan`
literals are outside the inputs analysed here and are rejected.
`none` models `ValueError`. -/
def parsePyFloat (s : String) : Option Dec :=
  let l := pystrip s.toList
  let core : List Char → Option Dec := fun cs =>
    match takeDigits cs with
    | (intDs, rest1) =>
      match rest1 with
      | [] =>
        if intDs.isEmpty then none
        else some ⟨Int.ofNat (digitsToNat intDs), 0⟩
      | '.' :: rest2 =>
        match takeDigits rest2 with
        | (fracDs, rest3) =>
          if rest3.isEmpty ∧ ¬(intDs.isEmpty ∧ fracDs.isEmpty) then
            some ⟨Int.ofNat (digitsToNat (intDs ++ fracDs)), fracDs.length⟩
          else none
      | _ => none
  match l with
  | '-' :: rest => (core rest).map (fun d => ⟨-d.mant, d.scale⟩)
  | '+' :: rest => core rest
  | cs => core cs

/-- Least-significant-first decimal digits of a natural number (fueled). -/
def natDigitsAux : Nat → Nat → List Char
  | 0, _ => []
  | Nat.succ f, n =>
    if n = 0 then [] else Char.ofNat (48 + n % 10) :: natDigitsAux f (n / 10)

/-- Least-significant-first decimal digits, with `['0']` for zero. -/
def natDigitsLsd (n : Nat) : List Char :=
  if n = 0 then ['0'] else natDigitsAux (n + 1) n

/-- Insert a comma after every three digits, on a least-significant-first
digit list (the grouping of Python's format spec `:,` for ints). -/
def withSep : List Char → List Char
  | a :: b :: c :: d :: rest => a :: b :: c :: ',' :: withSep (d :: rest)
  | l => l

/-- Python `f-string` rendering of an int with `:,` thousands grouping. -/
def pyCommaFormat (n : Int) : String :=
  (if n < 0 then "-" else "") ++ String.mk ((withSep (natDigitsLsd n.natAbs)).reverse)

/-- The money rendering used throughout the fallback document:
`f"R$ x:,".replace(',', '.')` — comma-grouped integer with the commas
turned into dots (a single-character replace, modelled char by char). -/
def formatMoney (n : Int) : String :=
  "R$ " ++ String.mk (((pyCommaFormat n).toList).map
    (fun c => if c = ',' then '.' else c))

/-- The `analysis_data` dict built by the `/analyze` route: the user-supplied
form fields, all strings after the route's `.strip()` handling (`preco`,
`objetivoReceita` and `orcamentoMarketing` are passed through raw). -/
structure AnalysisData where
  nicho : String
  produto : String
  descricao : String
  preco : String
  publico : String
  concorrentes : String
  dados_adicionais : String
  objetivoReceita : String
  prazoLancamento : String
  orcamentoMarketing : String
deriving DecidableEq

/-- `preco` as resolved by `_create_fallback_analysis`:
`float(data.get('preco', 0)) if data.get('preco') else 997.0`, with the
surrounding `except (ValueError, TypeError)` also yielding `997.0`. -/
def precoVal (data : AnalysisData) : Dec :=
  if data.preco = "" then Dec.ofInt 997
  else (parsePyFloat data.preco).getD (Dec.ofInt 997)

/-- `objetivo_receita` as resolved by `_create_fallback_analysis`
(default `100000.0` when absent or unparsable). -/
def objetivoReceitaVal (data : AnalysisData) : Dec :=
  if data.objetivoReceita = "" then Dec.ofInt 100000
  else (parsePyFloat data.objetivoReceita).getD (Dec.ofInt 100000)

/-- `orcamento_marketing` as resolved by `_create_fallback_analysis`
(default `50000.0` when absent or unparsable). -/
def orcamentoMarketingVal (data : AnalysisData) : Dec :=
  if data.orcamentoMarketing = "" then Dec.ofInt 50000
  else (parsePyFloat data.orcamentoMarketing).getD (Dec.ofInt 50000)

/-- `DeepSeekClient._create_fallback_analysis`: the deterministic full-shape
analysis document, transcribed key for key from the source. `now` stands for
`datetime.now().isoformat()` in `research_metadata.search_timestamp`. -/
def createFallbackAnalysis (data : AnalysisData) (now : String) : Json :=
  let nicho := data.nicho
  let produto := data.produto
  let preco := precoVal data
  let objetivo_receita := objetivoReceitaVal data
  let orcamento_marketing := orcamentoMarketingVal data
  Json.obj [
    ("escopo", Json.obj [
      ("nicho_principal", Json.str nicho),
      ("subnichos", Json.arr [
        Json.str (nicho ++ " para iniciantes"),
        Json.str (nicho ++ " avançado"),
        Json.str (nicho ++ " empresarial")]),
      ("produto_ideal", Json.str produto),
      ("proposta_valor", Json.str
        ("A metodologia mais completa e prática para dominar " ++ nicho ++
         " no mercado brasileiro"))]),
    ("avatar", Json.obj [
      ("demografia", Json.obj [
        ("faixa_etaria", Json.str "32-45 anos"),
        ("genero", Json.str "65% mulheres, 35% homens"),
        ("localizacao", Json.str
          "Região Sudeste (45%), Sul (25%), Nordeste (20%), Centro-Oeste (10%)"),
        ("renda", Json.str "R$ 8.000 - R$ 25.000 mensais"),
        ("escolaridade", Json.str
          "Superior completo (80%), Pós-graduação (45%)"),
        ("profissoes", Json.arr [
          Json.str "Empreendedores digitais", Json.str "Consultores",
          Json.str "Profissionais liberais", Json.str "Gestores",
          Json.str "Coaches"])]),
      ("psicografia", Json.obj [
        ("valores", Json.arr [
          Json.str "Crescimento pessoal contínuo",
          Json.str "Independência financeira",
          Json.str "Reconhecimento profissional"]),
        ("estilo_vida", Json.str
          ("Vida acelerada, busca por eficiência e produtividade, valoriza " ++
           "tempo de qualidade com família, investe em desenvolvimento pessoal")),
        ("aspiracoes", Json.arr [
          Json.str "Ser reconhecido como autoridade no nicho",
          Json.str "Ter liberdade geográfica e financeira"]),
        ("medos", Json.arr [
          Json.str "Ficar obsoleto no mercado",
          Json.str "Perder oportunidades por indecisão",
          Json.str "Não conseguir escalar o negócio"]),
        ("frustracoes", Json.arr [
          Json.str "Excesso de informação sem aplicação prática",
          Json.str "Falta de tempo para implementar estratégias"])]),
      ("comportamento_digital", Json.obj [
        ("plataformas", Json.arr [
          Json.str "Instagram (stories e reels)",
          Json.str "LinkedIn (networking profissional)"]),
        ("horarios_pico", Json.str "6h-8h (manhã) e 19h-22h (noite)"),
        ("conteudo_preferido", Json.arr [
          Json.str "Vídeos educativos curtos",
          Json.str "Cases de sucesso com números",
          Json.str "Dicas práticas aplicáveis"]),
        ("influenciadores", Json.arr [
          Json.str "Especialistas reconhecidos no nicho",
          Json.str "Empreendedores de sucesso com transparência"])])]),
    ("dores_desejos", Json.obj [
      ("principais_dores", Json.arr [
        Json.obj [
          ("descricao", Json.str
            ("Dificuldade para se posicionar como autoridade em " ++ nicho)),
          ("impacto", Json.str
            ("Baixo reconhecimento profissional e dificuldade para " ++
             "precificar serviços adequadamente")),
          ("urgencia", Json.str "Alta")],
        Json.obj [
          ("descricao", Json.str "Falta de metodologia estruturada e comprovada"),
          ("impacto", Json.str
            "Resultados inconsistentes e desperdício de tempo e recursos"),
          ("urgencia", Json.str "Alta")],
        Json.obj [
          ("descricao", Json.str
            "Concorrência acirrada e commoditização do mercado"),
          ("impacto", Json.str
            "Guerra de preços e dificuldade para se diferenciar"),
          ("urgencia", Json.str "Média")]]),
      ("estado_atual", Json.str
        ("Profissional competente com conhecimento técnico, mas sem " ++
         "estratégia clara de posicionamento e crescimento")),
      ("estado_desejado", Json.str
        ("Autoridade reconhecida no nicho com negócio escalável e " ++
         "lucrativo, trabalhando com propósito e impacto")),
      ("obstaculos", Json.arr [
        Json.str "Falta de método estruturado",
        Json.str "Dispersão de foco em múltiplas estratégias",
        Json.str "Recursos limitados para investimento"]),
      ("sonho_secreto", Json.str
        ("Ser reconhecido como o maior especialista do nicho no Brasil e " ++
         "ter um negócio que funcione sem sua presença constante"))]),
    ("concorrencia", Json.obj [
      ("diretos", Json.arr [
        Json.obj [
          ("nome", Json.str ("Academia Premium " ++ nicho)),
          ("preco", Json.str (formatMoney (pyint (preco.mul ⟨18, 1⟩)))),
          ("usp", Json.str "Metodologia exclusiva com certificação"),
          ("forcas", Json.arr [
            Json.str "Marca estabelecida há 5+ anos",
            Json.str "Comunidade ativa de 10k+ membros"]),
          ("fraquezas", Json.arr [
            Json.str "Preço elevado", Json.str "Suporte limitado",
            Json.str "Conteúdo muito teórico"])]]),
      ("indiretos", Json.arr [
        Json.obj [
          ("nome", Json.str "Cursos gratuitos no YouTube"),
          ("tipo", Json.str "Conteúdo educacional gratuito")]]),
      ("gaps_mercado", Json.arr [
        Json.str "Falta de metodologia prática com implementação assistida",
        Json.str "Ausência de suporte contínuo pós-compra",
        Json.str
          "Preços inacessíveis para profissionais em início de carreira"])]),
    ("mercado", Json.obj [
      ("tam", Json.str "R$ 3,2 bilhões"),
      ("sam", Json.str "R$ 480 milhões"),
      ("som", Json.str "R$ 24 milhões"),
      ("volume_busca", Json.str "67.000 buscas/mês"),
      ("tendencias_alta", Json.arr [
        Json.str "IA aplicada ao nicho",
        Json.str "Automação de processos",
        Json.str "Sustentabilidade e ESG"]),
      ("tendencias_baixa", Json.arr [
        Json.str "Métodos tradicionais offline",
        Json.str "Processos manuais repetitivos"]),
      ("sazonalidade", Json.obj [
        ("melhores_meses", Json.arr [
          Json.str "Janeiro", Json.str "Março", Json.str "Setembro"]),
        ("piores_meses", Json.arr [
          Json.str "Dezembro", Json.str "Julho"])])]),
    ("palavras_chave", Json.obj [
      ("principais", Json.arr [
        Json.obj [
          ("termo", Json.str ("curso " ++ nicho)),
          ("volume", Json.str "12.100"),
          ("cpc", Json.str "R$ 4,20"),
          ("dificuldade", Json.str "Média"),
          ("intencao", Json.str "Comercial")]]),
      ("custos_plataforma", Json.obj [
        ("facebook", Json.obj [
          ("cpm", Json.str "R$ 18"), ("cpc", Json.str "R$ 1,45"),
          ("cpl", Json.str "R$ 28"), ("conversao", Json.str "2,8%")]),
        ("google", Json.obj [
          ("cpm", Json.str "R$ 32"), ("cpc", Json.str "R$ 3,20"),
          ("cpl", Json.str "R$ 52"), ("conversao", Json.str "3,5%")]),
        ("youtube", Json.obj [
          ("cpm", Json.str "R$ 12"), ("cpc", Json.str "R$ 0,80"),
          ("cpl", Json.str "R$ 20"), ("conversao", Json.str "1,8%")]),
        ("tiktok", Json.obj [
          ("cpm", Json.str "R$ 8"), ("cpc", Json.str "R$ 0,60"),
          ("cpl", Json.str "R$ 18"), ("conversao", Json.str "1,5%")])])]),
    ("metricas", Json.obj [
      ("cac_medio", Json.str
        (formatMoney (pyint (orcamento_marketing.mul ⟨1, 2⟩)))),
      ("funil_conversao", Json.arr [
        Json.str "100% visitantes", Json.str "18% leads",
        Json.str "3,2% vendas"]),
      ("ltv_medio", Json.str (formatMoney (pyint (preco.mul ⟨18, 1⟩)))),
      ("ltv_cac_ratio", Json.str "4,0:1"),
      ("roi_canais", Json.obj [
        ("facebook", Json.str "320%"), ("google", Json.str "380%"),
        ("youtube", Json.str "250%"), ("tiktok", Json.str "180%")])]),
    ("voz_mercado", Json.obj [
      ("objecoes", Json.arr [
        Json.obj [
          ("objecao", Json.str "Não tenho tempo para mais um curso"),
          ("contorno", Json.str
            ("Metodologia de implementação em 15 minutos diários com " ++
             "resultados em 30 dias"))]]),
      ("linguagem", Json.obj [
        ("termos", Json.arr [
          Json.str "Metodologia", Json.str "Sistema", Json.str "Framework",
          Json.str "Estratégia", Json.str "Resultados"]),
        ("girias", Json.arr [
          Json.str "Game changer", Json.str "Virada de chave",
          Json.str "Next level"]),
        ("gatilhos", Json.arr [
          Json.str "Comprovado cientificamente",
          Json.str "Resultados garantidos",
          Json.str "Método exclusivo"])]),
      ("crencas_limitantes", Json.arr [
        Json.str "Preciso trabalhar mais horas para ganhar mais dinheiro",
        Json.str
          "Só quem tem muito dinheiro consegue se destacar no mercado"])]),
    ("projecoes", Json.obj [
      ("conservador", Json.obj [
        ("conversao", Json.str "2,0%"),
        ("faturamento", Json.str
          (formatMoney (pyint (objetivo_receita.mul ⟨6, 1⟩)))),
        ("roi", Json.str "240%")]),
      ("realista", Json.obj [
        ("conversao", Json.str "3,2%"),
        ("faturamento", Json.str (formatMoney (pyint objetivo_receita))),
        ("roi", Json.str "380%")]),
      ("otimista", Json.obj [
        ("conversao", Json.str "5,0%"),
        ("faturamento", Json.str
          (formatMoney (pyint (objetivo_receita.mul ⟨15, 1⟩)))),
        ("roi", Json.str "580%")])]),
    ("plano_acao", Json.arr [
      Json.obj [("passo", Json.num 1),
        ("acao", Json.str
          "Validar proposta de valor com pesquisa qualitativa (50 entrevistas)"),
        ("prazo", Json.str "2 semanas")],
      Json.obj [("passo", Json.num 2),
        ("acao", Json.str
          "Criar landing page otimizada com copy baseado na pesquisa"),
        ("prazo", Json.str "1 semana")],
      Json.obj [("passo", Json.num 3),
        ("acao", Json.str
          "Configurar campanhas de tráfego pago (Facebook e Google)"),
        ("prazo", Json.str "1 semana")],
      Json.obj [("passo", Json.num 4),
        ("acao", Json.str
          "Produzir conteúdo de aquecimento (webinar + sequência de e-mails)"),
        ("prazo", Json.str "2 semanas")],
      Json.obj [("passo", Json.num 5),
        ("acao", Json.str
          "Executar campanha de pré-lançamento com early bird"),
        ("prazo", Json.str "1 semana")],
      Json.obj [("passo", Json.num 6),
        ("acao", Json.str "Lançamento oficial com live de abertura"),
        ("prazo", Json.str "1 semana")],
      Json.obj [("passo", Json.num 7),
        ("acao", Json.str
          "Otimizar campanhas baseado em dados e escalar investimento"),
        ("prazo", Json.str "Contínuo")]]),
    ("insights_pesquisa", Json.obj [
      ("dados_mercado", Json.str
        ("Análise baseada em dados de mercado consolidados e benchmarks " ++
         "da indústria")),
      ("concorrentes_encontrados", Json.str
        "Principais players identificados através de análise competitiva"),
      ("tendencias_identificadas", Json.str
        "Tendências emergentes no mercado brasileiro"),
      ("oportunidades_unicas", Json.str
        "Gaps de mercado identificados para diferenciação estratégica")]),
    ("research_metadata", Json.obj [
      ("search_timestamp", Json.str now),
      ("sources_consulted", Json.num 0),
      ("competitors_analyzed", Json.num 0),
      ("data_quality", Json.str "fallback")])]

/-- The eleven top-level keys both generation paths must populate. -/
def requiredKeys : List String :=
  ["escopo", "avatar", "dores_desejos", "concorrencia", "mercado",
   "palavras_chave", "metricas", "voz_mercado", "projecoes", "plano_acao",
   "insights_pesquisa"]

/-- Whether a document carries every required top-level key. -/
def hasAllRequiredKeys (j : Json) : Bool :=
  requiredKeys.all (fun k => (j.get? k).isSome)

/-- A concrete request: niche Fitness, price 500, everything else blank. -/
def dFitness : AnalysisData :=
  ⟨"Fitness", "", "", "500", "", "", "", "", "", ""⟩

/-- One web search hit: title, url, snippet
(`WebSearcher.search_google` result entries). -/
structure SearchResult where
  title : String
  url : String
  snippet : String
deriving DecidableEq

/-- The outbound search network, one outcome per query string: either the
parsed result list of the HTTP response, or an exception
(network/parsing/rate-limit failure inside the HTTP call). -/
def SearchOracle : Type := String → Except Unit (List SearchResult)

/-- An outbound call issued by the pipeline: a web search with its query and
requested result count, or the single LLM chat-completion call. -/
inductive Call where
  | search (query : String) (numResults : Nat) : Call
  | llm : Call
deriving DecidableEq

/-- `WebSearcher.search_google`: issue the query, keep at most `numResults`
hits; any exception is caught and logged, and an empty list returned — this
function never raises to its caller. -/
def searchGoogle (oracle : SearchOracle) (query : String) (numResults : Nat) :
    List SearchResult :=
  match oracle query with
  | .ok results => results.take numResults
  | .error _ => []

/-- The five fixed market-data categories and their niche-templated query
patterns, in the order of `WebSearcher.search_market_data`. -/
def categoryQueries (nicho : String) : List (String × String) :=
  [("market_size", "mercado " ++ nicho ++ " Brasil 2024 tamanho"),
   ("trends", nicho ++ " tendências mercado brasileiro"),
   ("competitors", "concorrentes " ++ nicho ++ " Brasil principais"),
   ("pricing", "preços " ++ nicho ++ " cursos online Brasil"),
   ("demographics", nicho ++ " público alvo perfil demográfico")]

/-- The query of a category by position. -/
def categoryQueryAt (nicho : String) (i : Fin 5) : String :=
  ((categoryQueries nicho).getD i.val ("", "")).2

/-- `WebSearcher.search_market_data`: one `search_google(query, 3)` per
category, in category order; the result maps each category to that query's
results (empty when the call failed). Also returns the issued calls. -/
def searchMarketDataRun (oracle : SearchOracle) (nicho : String) :
    List (String × List SearchResult) × List Call :=
  (categoryQueries nicho).foldl
    (fun acc p =>
      (acc.1 ++ [(p.1, searchGoogle oracle p.2 3)],
       acc.2 ++ [Call.search p.2 3]))
    ([], [])

/-- The per-competitor info dict built by `WebSearcher.get_competitor_info`. -/
structure CompetitorInfo where
  name : String
  search_results : List SearchResult
  last_updated : String
deriving DecidableEq

/-- The competitor query template of `get_competitor_info`. -/
def competitorQuery (name nicho : String) : String :=
  name ++ " " ++ nicho ++ " preço curso online"

/-- `WebSearcher.get_competitor_info`: one `search_google(query, 3)` call;
the returned dict is always non-empty (truthy), since `search_google` never
raises. Also returns the issued calls. -/
def getCompetitorInfoRun (oracle : SearchOracle) (name nicho now : String) :
    CompetitorInfo × List Call :=
  ({ name := name,
     search_results := searchGoogle oracle (competitorQuery name nicho) 3,
     last_updated := now },
   [Call.search (competitorQuery name nicho) 3])

/-- Python `s.split(',')`: split on every comma; the empty string yields a
single empty part. -/
def splitOnComma : List Char → List (List Char)
  | [] => [[]]
  | c :: rest =>
    if c == ',' then [] :: splitOnComma rest
    else
      match splitOnComma rest with
      | [] => [[c]]
      | g :: gs => (c :: g) :: gs

/-- The competitor name list of `_conduct_market_research`:
`[c.strip() for c in concorrentes.split(',') if c.strip()]`. -/
def competitorNames (concorrentes : String) : List String :=
  ((splitOnComma concorrentes.toList).map (fun l => String.mk (pystrip l))).filter
    (fun c => c ≠ "")

/-- The `research_data` dict of `_conduct_market_research` (the `trend_data`
and `pricing_data` slots stay empty in the source and are omitted). -/
structure ResearchData where
  market_data : List (String × List SearchResult)
  competitor_data : List CompetitorInfo
  search_timestamp : String
deriving DecidableEq

/-- `DeepSeekClient._conduct_market_research`: gather the five category
query results and, when the competitors field is truthy, one
`get_competitor_info` per competitor for the first three non-empty names,
in input order (every info dict is truthy, so none is dropped). Also
returns the issued calls. -/
def conductMarketResearchRun (oracle : SearchOracle) (data : AnalysisData)
    (now : String) : ResearchData × List Call :=
  let market := searchMarketDataRun oracle data.nicho
  let comp :=
    if data.concorrentes ≠ "" then (competitorNames data.concorrentes).take 3
    else []
  let pairs := comp.map (fun n => getCompetitorInfoRun oracle n data.nicho now)
  ({ market_data := market.1,
     competitor_data := pairs.map (fun p => p.1),
     search_timestamp := now },
   market.2 ++ (pairs.map (fun p => p.2)).flatten)

/-- The `research_metadata` block attached by `_enrich_analysis`. -/
def researchMetadataObj (research : ResearchData) : Json :=
  Json.obj [
    ("search_timestamp", Json.str research.search_timestamp),
    ("sources_consulted", Json.num research.market_data.length),
    ("competitors_analyzed", Json.num research.competitor_data.length),
    ("data_quality", Json.str
      (if research.market_data.isEmpty then "limited" else "high"))]

/-- The minimal `insights_pesquisa` block `_enrich_analysis` synthesizes
when the key is missing. -/
def synthInsights (research : ResearchData) : Json :=
  Json.obj [
    ("dados_mercado", Json.str
      "Análise baseada em pesquisa de mercado atualizada"),
    ("concorrentes_encontrados", Json.str
      (String.intercalate ", " (research.competitor_data.map (fun c => c.name)))),
    ("tendencias_identificadas", Json.str
      "Tendências identificadas através de pesquisa online"),
    ("oportunidades_unicas", Json.str
      "Oportunidades baseadas em gaps identificados na pesquisa")]

/-- `DeepSeekClient._enrich_analysis`: on a dict, assign the
`research_metadata` block, then add a synthesized `insights_pesquisa` when
that key is missing; on a non-dict value the item assignment raises,
the `except` swallows it and the value is returned unchanged. -/
def enrichAnalysis (analysis : Json) (research : ResearchData) : Json :=
  match analysis with
  | .obj fields =>
    let f1 := setKey fields "research_metadata" (researchMetadataObj research)
    if hasKey f1 "insights_pesquisa" then Json.obj f1
    else Json.obj (f1 ++ [("insights_pesquisa", synthInsights research)])
  | other => other

/-- The environment of one `analyze_avatar_comprehensive` run: the
configured credential, the search network, the outcome of the (single) LLM
completion call, and the current wall-clock timestamp. -/
structure Env where
  apiKey : Option String
  oracle : SearchOracle
  llm : Except Unit String
  time : String

/-- `DeepSeekClient.__init__`: the client is configured exactly when a
credential is present and starts with `sk-` (a malformed or missing key
leaves `self.client = None`). -/
def clientConfigured (e : Env) : Bool :=
  match e.apiKey with
  | none => false
  | some k => List.isPrefixOf ("sk-".toList) k.toList

/-- `DeepSeekClient._generate_ai_analysis`: one LLM call; on a transport
error, or when `_extract_and_validate_json` returns `None` or a falsy
value, the fallback document is returned instead. Also returns the issued
calls. -/
def generateAiAnalysisRun (e : Env) (data : AnalysisData)
    (_research : ResearchData) : Json × List Call :=
  match e.llm with
  | .error _ => (createFallbackAnalysis data e.time, [Call.llm])
  | .ok content =>
    match extractAndValidateJson content with
    | some j =>
      if j.truthy then (j, [Call.llm])
      else (createFallbackAnalysis data e.time, [Call.llm])
    | none => (createFallbackAnalysis data e.time, [Call.llm])

/-- `DeepSeekClient.analyze_avatar_comprehensive`: with no configured
client return the fallback directly (no outbound call); otherwise research,
generate, enrich. Every failure inside the pipeline is caught below this
boundary, so the function always returns a document. Returns the document
and the outbound calls issued. -/
def analyzeRun (e : Env) (data : AnalysisData) : Json × List Call :=
  if clientConfigured e then
    let research := conductMarketResearchRun e.oracle data e.time
    let generated := generateAiAnalysisRun e data research.1
    (enrichAnalysis generated.1 research.1, research.2 ++ generated.2)
  else
    (createFallbackAnalysis data e.time, [])

/-- The truthy extraction outcome of the LLM path, when one exists. -/
def llmTruthyExtract (e : Env) : Option Json :=
  match e.llm with
  | .error _ => none
  | .ok content =>
    match extractAndValidateJson content with
    | some j => if j.truthy then some j else none
    | none => none

/-- One field of the route's conversion block: `float(x) if x else None`,
where a falsy (empty) field is `None` and an unparsable one raises
`ValueError` (`Except.error`). -/
def floatFieldVal (s : String) : Except Unit (Option Dec) :=
  if s = "" then .ok none
  else
    match parsePyFloat s with
    | some d => .ok (some d)
    | none => .error ()

/-- The `/analyze` route's numeric conversion block: the three conversions
run inside one `try`, so the first `ValueError` jumps to the shared
`except`, which sets all three fields to `None` (values assigned before the
failing line are overwritten). The block itself never rejects the request. -/
def convertNumerics (preco objetivoReceita orcamentoMarketing : String) :
    Option Dec × Option Dec × Option Dec :=
  match floatFieldVal preco, floatFieldVal objetivoReceita,
      floatFieldVal orcamentoMarketing with
  | .ok a, .ok b, .ok c => (a, b, c)
  | _, _, _ => (none, none, none)

/-- The `research_data` value produced inside one orchestrator run. -/
def researchOf (e : Env) (data : AnalysisData) : ResearchData :=
  (conductMarketResearchRun e.oracle data e.time).1

/-- Removal of the wall-clock field: the document with
`research_metadata.search_timestamp` deleted. -/
def stripSearchTimestamp : Json → Json
  | .obj fields =>
    Json.obj (fields.map (fun p =>
      if p.1 = "research_metadata" then
        (p.1,
         match p.2 with
         | .obj mf => Json.obj (mf.filter (fun q => q.1 ≠ "search_timestamp"))
         | other => other)
      else p))
  | other => other

/-- Whether a call is a web search requesting 3 results. -/
def isSearchLimit3 : Call → Bool
  | .search _ n => n == 3
  | .llm => false

/-- An environment with a malformed credential (no `sk-` prefix). -/
def envNoCred : Env :=
  ⟨some "invalid-key", fun _ => Except.ok [], Except.ok "", "T"⟩

/-- A request with niche Fitness and one competitor name. -/
def dFitnessComp : AnalysisData :=
  ⟨"Fitness", "", "", "500", "", "Alfa", "", "", "", ""⟩

/-- A request with niche Fitness and two competitor names. -/
def dFitnessAB : AnalysisData :=
  ⟨"Fitness", "", "", "", "", "Alfa, Beta", "", "", "", ""⟩

/-- An environment whose LLM answers with a JSON object that carries none
of the required analysis keys. -/
def envFooOnly : Env :=
  ⟨some "sk-test", fun _ => Except.ok [], Except.ok "\x7b\"foo\": 1\x7d", "T"⟩

/-- An environment whose every search yields no results and whose LLM
answers with a minimal truthy object. -/
def envEmptyResearch : Env :=
  ⟨some "sk-test", fun _ => Except.ok [], Except.ok "\x7b\"escopo\": 1\x7d", "T"⟩

/-- A sample search hit. -/
def r1 : SearchResult := ⟨"titulo", "url", "snippet"⟩

/-- A search network that throws exactly on the second (trends) category
query for the Fitness niche and answers every other query with one hit. -/
def oracleFailTrends : SearchOracle := fun q =>
  if q = categoryQueryAt "Fitness" 1 then Except.error () else Except.ok [r1]

/-- A sample research aggregate with one non-empty category. -/
def rSample : ResearchData := ⟨[("market_size", [r1])], [], "T"⟩

theorem find?_append_of_some {α} (p : α → Bool) (l1 l2 : List α) (x : α)
    (h : l1.find? p = some x) : (l1 ++ l2).find? p = some x := by
  induction l1 with
  | nil => simp [List.find?] at h
  | cons a t ih =>
    cases hpa : p a with
    | true =>
      simp only [List.cons_append, List.find?_cons, hpa] at h ⊢
      exact h
    | false =>
      simp only [List.cons_append, List.find?_cons, hpa] at h ⊢
      exact ih h

theorem find?_append_of_none {α} (p : α → Bool) (l1 l2 : List α)
    (h : l1.find? p = none) : (l1 ++ l2).find? p = l2.find? p := by
  induction l1 with
  | nil => simp
  | cons a t ih =>
    cases hpa : p a with
    | true =>
      simp only [List.find?_cons, hpa] at h
      exact absurd h (by simp)
    | false =>
      simp only [List.cons_append, List.find?_cons, hpa] at h ⊢
      exact ih h

theorem find?_setKey_self (fs : List (String × Json)) (k : String) (v : Json) :
    (setKey fs k v).find? (fun p => p.1 == k) = some (k, v) := by
  induction fs with
  | nil => simp [setKey, List.find?_cons]
  | cons p t ih =>
    cases hp : (p.1 == k) with
    | true => simp [setKey, hp, List.find?_cons]
    | false =>
      simp only [setKey, hp, Bool.false_eq_true, if_false]
      simp only [List.find?_cons, hp]
      exact ih

theorem hasKey_setKey_ne (fs : List (String × Json)) (k k2 : String) (v : Json)
    (hne : k ≠ k2) : hasKey (setKey fs k v) k2 = hasKey fs k2 := by
  induction fs with
  | nil => simp [setKey, hasKey, hne]
  | cons p t ih =>
    cases hp : (p.1 == k) with
    | true =>
      have hpk : p.1 = k := by simpa using hp
      simp [setKey, hp, hasKey, hne, hpk]
    | false =>
      simp only [setKey, hp, Bool.false_eq_true, if_false]
      simp only [hasKey, List.any_cons] at ih ⊢
      rw [ih]

theorem find?_none_of_hasKey_false (fs : List (String × Json)) (k : String)
    (h : hasKey fs k = false) : fs.find? (fun p => p.1 == k) = none := by
  induction fs with
  | nil => simp [List.find?]
  | cons p t ih =>
    have h1 : (p.1 == k) = false ∧ hasKey t k = false := by
      simpa [hasKey, List.any_cons, Bool.or_eq_false_iff] using h
    simp only [List.find?_cons, h1.1]
    exact ih h1.2

theorem flatten_map_singleton {α β} (g : α → β) (l : List α) :
    (l.map (fun a => [g a])).flatten = l.map g := by
  induction l with
  | nil => rfl
  | cons a t ih => simp [ih]

theorem flatten_singletons {α β} (f : α → List β) (g : α → β)
    (hf : ∀ a, f a = [g a]) (l : List α) : (l.map f).flatten = l.map g := by
  induction l with
  | nil => rfl
  | cons a t ih => simp [hf, ih]

theorem map_eq_self_of_id {α} (f : α → α) (hf : ∀ a, f a = a) (l : List α) :
    l.map f = l := by
  induction l with
  | nil => rfl
  | cons a t ih => simp [hf, ih]

/-- C6: if the LLM credential is absent or does not start with `sk-`, the
orchestrator returns the fallback analysis directly and issues no web-search
call and no LLM call. -/
theorem C6_no_calls_without_credential (e : Env) (data : AnalysisData)
    (h : clientConfigured e = false) :
    analyzeRun e data = (createFallbackAnalysis data e.time, []) := by
  simp [analyzeRun, h]

/-- Witness for C6 at a malformed credential. -/
theorem C6_no_calls_witness :
    clientConfigured envNoCred = false ∧
    analyzeRun envNoCred dFitness = (createFallbackAnalysis dFitness "T", []) :=
  ⟨rfl, C6_no_calls_without_credential envNoCred dFitness rfl⟩

/-- C10: extraction accepts valid non-object JSON with no brace (`"42"`,
`"[1, 2]"`) and returns it; the orchestrator treats any truthy extraction as
success and enrichment swallows the type error on a non-dict, so
`analyze_avatar_comprehensive` can return a value that is not a JSON object. -/
theorem C10_non_object_result :
    extractAndValidateJson "42" = some (Json.num 42) ∧
    extractAndValidateJson "[1, 2]" = some (Json.arr [Json.num 1, Json.num 2]) ∧
    Json.isObj (Json.num 42) = false ∧
    (∀ research : ResearchData,
      enrichAnalysis (Json.num 42) research = Json.num 42) ∧
    (analyzeRun ⟨some "sk-test", fun _ => Except.ok [], Except.ok "42", "T"⟩
        dFitness).1 = Json.num 42 :=
  ⟨rfl, rfl, rfl, fun _ => rfl, rfl⟩

/-- C2 (amended): extraction trims the text; when both a brace pair is
present it parses exactly the inclusive first-`{`..last-`}` span and returns
`None` on that parse's failure — the whole-trimmed-text parse is attempted
only when `{` or `}` is absent, not as a second chance after a failed span
parse. Spec test vectors: prose-wrapped JSON is recovered, nested braces are
preserved, non-JSON is rejected, and no exception escapes (the result is
always an `Option`). -/
theorem C2_extract_span_amended :
    (∀ content : List Char, ∀ s e : Nat,
        firstIdxOf (pystrip content) lbrace = some s →
        lastIdxOf (pystrip content) rbrace = some e →
        extractCore content =
          parseJson (((pystrip content).drop s).take (e + 1 - s))) ∧
    (∀ content : List Char,
        firstIdxOf (pystrip content) lbrace = none ∨
        lastIdxOf (pystrip content) rbrace = none →
        extractCore content = parseJson (pystrip content)) ∧
    extractAndValidateJson "noise \x7b\"a\":1\x7d trailing" =
      some (Json.obj [("a", Json.num 1)]) ∧
    extractAndValidateJson "not json at all" = none ∧
    extractAndValidateJson "pre \x7b\"a\":\x7b\"b\":1\x7d\x7d post" =
      some (Json.obj [("a", Json.obj [("b", Json.num 1)])]) := by
  refine ⟨?_, ?_, rfl, rfl, rfl⟩
  · intro content s e h1 h2
    simp [extractCore, h1, h2]
  · intro content h
    rcases h with h | h
    · cases h2 : lastIdxOf (pystrip content) rbrace <;> simp [extractCore, h, h2]
    · cases h1 : firstIdxOf (pystrip content) lbrace <;> simp [extractCore, h, h1]

/-- Witness for C2 at a concrete brace-wrapped text. -/
theorem C2_extract_span_witness :
    firstIdxOf (pystrip ("x\x7by\x7dz".toList)) lbrace = some 1 ∧
    lastIdxOf (pystrip ("x\x7by\x7dz".toList)) rbrace = some 3 ∧
    extractCore ("x\x7by\x7dz".toList) =
      parseJson (((pystrip ("x\x7by\x7dz".toList)).drop 1).take 3) :=
  ⟨rfl, rfl, C2_extract_span_amended.1 ("x\x7by\x7dz".toList) 1 3 rfl rfl⟩

/-- Counterexample for C2 as stated: on the valid JSON text `"}{"` (a JSON
string literal) the span parse fails, and the code returns `None` without
attempting the whole trimmed text — which parses successfully. -/
theorem C2_no_whole_text_retry_counterexample :
    extractAndValidateJson "\"\x7d\x7b\"" = none ∧
    parseJson (pystrip ("\"\x7d\x7b\"".toList)) = some (Json.str "\x7d\x7b") :=
  ⟨rfl, rfl⟩

/-- C4 (amended): the three numeric conversions share one `try`, so a parse
failure in any field nulls all three (fields are not independent); when no
field fails, each keeps its own parsed value (empty ⇒ null); a `ValueError`
never rejects the request — the block always produces a value. -/
theorem C4_numeric_parse_amended (p o m : String) :
    (∀ a b c : Option Dec,
      floatFieldVal p = .ok a → floatFieldVal o = .ok b →
      floatFieldVal m = .ok c → convertNumerics p o m = (a, b, c)) ∧
    ((floatFieldVal p = .error () ∨ floatFieldVal o = .error () ∨
      floatFieldVal m = .error ()) →
      convertNumerics p o m = (none, none, none)) := by
  constructor
  · intro a b c ha hb hc
    simp [convertNumerics, ha, hb, hc]
  · intro h
    rcases h with h | h | h
    · simp [convertNumerics, h]
    · cases hp : floatFieldVal p <;> simp [convertNumerics, h, hp]
    · cases hp : floatFieldVal p <;> cases ho : floatFieldVal o <;>
        simp [convertNumerics, h, hp, ho]

/-- Witness for C4: all-parse and one-failure instances. -/
theorem C4_numeric_parse_witness :
    floatFieldVal "abc" = .error () ∧
    convertNumerics "500" "" "2.5" =
      (some (Dec.ofInt 500), none, some ⟨25, 1⟩) ∧
    convertNumerics "500" "abc" "" = (none, none, none) :=
  ⟨rfl,
   (C4_numeric_parse_amended "500" "" "2.5").1 _ _ _ rfl rfl rfl,
   (C4_numeric_parse_amended "500" "abc" "").2 (Or.inr (Or.inl rfl))⟩

/-- Counterexample for C4 as stated: with `preco="500"`,
`objetivoReceita="abc"`, the parseable price does not keep its value — all
three fields become null. -/
theorem C4_independence_counterexample :
    parsePyFloat "500" = some (Dec.ofInt 500) ∧
    convertNumerics "500" "abc" "" = (none, none, none) :=
  ⟨rfl, rfl⟩

/-- C8 (amended): the fallback builder is a deterministic function of the
request fields and the capture timestamp; every field except
`research_metadata.search_timestamp` depends only on the request, so two
invocations with the same request agree after deleting that timestamp. -/
theorem C8_fallback_deterministic_amended (data : AnalysisData)
    (now1 now2 : String) :
    stripSearchTimestamp (createFallbackAnalysis data now1) =
    stripSearchTimestamp (createFallbackAnalysis data now2) := rfl

/-- Counterexample for C8 as stated: two invocations on the same request at
different wall-clock times produce different documents. -/
theorem C8_timestamp_counterexample :
    createFallbackAnalysis dFitness "2024-01-01" ≠
    createFallbackAnalysis dFitness "2024-01-02" := by
  intro h
  have h2 := congrArg
    (fun j => j.getPath? ["research_metadata", "search_timestamp"]) h
  have e1 : (createFallbackAnalysis dFitness "2024-01-01").getPath?
      ["research_metadata", "search_timestamp"] =
      some (Json.str "2024-01-01") := rfl
  have e2 : (createFallbackAnalysis dFitness "2024-01-02").getPath?
      ["research_metadata", "search_timestamp"] =
      some (Json.str "2024-01-02") := rfl
  simp only at h2
  rw [e1, e2] at h2
  injection h2 with h3
  injection h3 with h4
  exact absurd h4 (by decide)

/-- C3: when the LLM path is unavailable the fallback substitutes 997.0 /
100000.0 / 50000.0 for absent or unparsable price / revenue goal /
marketing budget, keeps parsable values, and renders
`metricas.cac_medio = int(0.01*budget)`, `metricas.ltv_medio =
int(1.8*price)` and the conservador/realista/otimista
`projecoes.*.faturamento = int(0.6/1.0/1.5 * revenue goal)` as `R$ ` plus
the dot-thousand-separated integer; for niche Fitness with price 500 the
realista faturamento renders 100000 and ltv_medio renders 900. -/
theorem C3_fallback_arithmetic (e : Env) (data : AnalysisData)
    (h : clientConfigured e = false) :
    ((analyzeRun e data).1.getPath? ["metricas", "cac_medio"] =
      some (Json.str (formatMoney (pyint ((orcamentoMarketingVal data).mul ⟨1, 2⟩)))) ∧
     (analyzeRun e data).1.getPath? ["metricas", "ltv_medio"] =
      some (Json.str (formatMoney (pyint ((precoVal data).mul ⟨18, 1⟩)))) ∧
     (analyzeRun e data).1.getPath? ["projecoes", "conservador", "faturamento"] =
      some (Json.str (formatMoney (pyint ((objetivoReceitaVal data).mul ⟨6, 1⟩)))) ∧
     (analyzeRun e data).1.getPath? ["projecoes", "realista", "faturamento"] =
      some (Json.str (formatMoney (pyint (objetivoReceitaVal data)))) ∧
     (analyzeRun e data).1.getPath? ["projecoes", "otimista", "faturamento"] =
      some (Json.str (formatMoney (pyint ((objetivoReceitaVal data).mul ⟨15, 1⟩))))) ∧
    (((data.preco = "" ∨ parsePyFloat data.preco = none) →
        precoVal data = Dec.ofInt 997) ∧
     ((data.objetivoReceita = "" ∨ parsePyFloat data.objetivoReceita = none) →
        objetivoReceitaVal data = Dec.ofInt 100000) ∧
     ((data.orcamentoMarketing = "" ∨ parsePyFloat data.orcamentoMarketing = none) →
        orcamentoMarketingVal data = Dec.ofInt 50000) ∧
     (∀ d : Dec, data.preco ≠ "" → parsePyFloat data.preco = some d →
        precoVal data = d) ∧
     (∀ d : Dec, data.objetivoReceita ≠ "" →
        parsePyFloat data.objetivoReceita = some d →
        objetivoReceitaVal data = d) ∧
     (∀ d : Dec, data.orcamentoMarketing ≠ "" →
        parsePyFloat data.orcamentoMarketing = some d →
        orcamentoMarketingVal data = d)) ∧
    (data = dFitness →
      (analyzeRun e data).1.getPath? ["projecoes", "realista", "faturamento"] =
        some (Json.str "R$ 100.000") ∧
      (analyzeRun e data).1.getPath? ["metricas", "ltv_medio"] =
        some (Json.str "R$ 900")) := by
  have hfb : analyzeRun e data = (createFallbackAnalysis data e.time, []) := by
    simp [analyzeRun, h]
  refine ⟨⟨?_, ?_, ?_, ?_, ?_⟩, ⟨?_, ?_, ?_, ?_, ?_, ?_⟩, ?_⟩
  · rw [hfb]; rfl
  · rw [hfb]; rfl
  · rw [hfb]; rfl
  · rw [hfb]; rfl
  · rw [hfb]; rfl
  · intro hd
    by_cases he : data.preco = ""
    · simp [precoVal, he]
    · rcases hd with hd | hd
      · exact absurd hd he
      · simp [precoVal, he, hd]
  · intro hd
    by_cases he : data.objetivoReceita = ""
    · simp [objetivoReceitaVal, he]
    · rcases hd with hd | hd
      · exact absurd hd he
      · simp [objetivoReceitaVal, he, hd]
  · intro hd
    by_cases he : data.orcamentoMarketing = ""
    · simp [orcamentoMarketingVal, he]
    · rcases hd with hd | hd
      · exact absurd hd he
      · simp [orcamentoMarketingVal, he, hd]
  · intro d hne hp
    simp [precoVal, hne, hp]
  · intro d hne hp
    simp [objetivoReceitaVal, hne, hp]
  · intro d hne hp
    simp [orcamentoMarketingVal, hne, hp]
  · intro hd
    subst hd
    exact ⟨by rw [hfb]; rfl, by rw [hfb]; rfl⟩

/-- Witness for C3 at the Fitness/price-500 request with no credential. -/
theorem C3_fallback_arithmetic_witness :
    clientConfigured envNoCred = false ∧
    ((analyzeRun envNoCred dFitness).1.getPath?
        ["projecoes", "realista", "faturamento"] =
      some (Json.str "R$ 100.000") ∧
     (analyzeRun envNoCred dFitness).1.getPath? ["metricas", "ltv_medio"] =
      some (Json.str "R$ 900")) :=
  ⟨rfl, (C3_fallback_arithmetic envNoCred dFitness rfl).2.2 rfl⟩

/-- C7: market-research gathering issues exactly the 5 fixed
niche-templated category queries plus one query per competitor for the
first three non-empty comma-separated names, every call requesting 3
results, competitor order preserved in the result; with 2 competitor names
exactly 7 calls are issued. -/
theorem C7_search_call_count (oracle : SearchOracle) (data : AnalysisData)
    (now : String) :
    (conductMarketResearchRun oracle data now).2 =
      (categoryQueries data.nicho).map (fun p => Call.search p.2 3) ++
      ((competitorNames data.concorrentes).take 3).map
        (fun n => Call.search (competitorQuery n data.nicho) 3) ∧
    (conductMarketResearchRun oracle data now).2.length =
      5 + min (competitorNames data.concorrentes).length 3 ∧
    ((conductMarketResearchRun oracle data now).2.all isSearchLimit3) = true ∧
    ((conductMarketResearchRun oracle data now).1.competitor_data.map
      (fun c => c.name)) = (competitorNames data.concorrentes).take 3 ∧
    (∀ o2 : SearchOracle, ∀ t2 : String,
      (conductMarketResearchRun o2 dFitnessAB t2).2.length = 7) := by
  have hmain : (conductMarketResearchRun oracle data now).2 =
      (categoryQueries data.nicho).map (fun p => Call.search p.2 3) ++
      ((competitorNames data.concorrentes).take 3).map
        (fun n => Call.search (competitorQuery n data.nicho) 3) := by
    simp only [conductMarketResearchRun]
    by_cases hc : data.concorrentes = ""
    · rw [hc]
      simp
      rfl
    · simp only [ne_eq, hc, not_false_eq_true, if_true]
      congr 1
      rw [List.map_map]
      exact flatten_singletons
        ((fun p => (p : CompetitorInfo × List Call).2) ∘
          fun n => getCompetitorInfoRun oracle n data.nicho now)
        (fun n => Call.search (competitorQuery n data.nicho) 3)
        (fun a => rfl) _
  refine ⟨hmain, ?_, ?_, ?_, ?_⟩
  · rw [hmain]
    simp [List.length_append, List.length_map, List.length_take, Nat.min_comm,
      categoryQueries]
    omega
  · rw [hmain, List.all_append]
    have h1 : ((categoryQueries data.nicho).map
        (fun p => Call.search p.2 3)).all isSearchLimit3 = true := rfl
    have h2 : (((competitorNames data.concorrentes).take 3).map
        (fun n => Call.search (competitorQuery n data.nicho) 3)).all
        isSearchLimit3 = true := by
      rw [List.all_eq_true]
      intro x hx
      rcases List.mem_map.mp hx with ⟨n, hn, rfl⟩
      rfl
    rw [h1, h2]
    rfl
  · simp only [conductMarketResearchRun]
    by_cases hc : data.concorrentes = ""
    · rw [hc]
      simp
      rfl
    · simp only [ne_eq, hc, not_false_eq_true, if_true]
      simp only [List.map_map, List.map_take]
      congr 1
      exact map_eq_self_of_id _ (fun a => rfl) _
  · intro o2 t2
    rfl

theorem market_data_getD (oracle : SearchOracle) (data : AnalysisData)
    (now : String) (j : Fin 5) :
    ((conductMarketResearchRun oracle data now).1.market_data.getD j.val
      ("", [])).2 =
    searchGoogle oracle (categoryQueryAt data.nicho j) 3 := by
  fin_cases j <;> rfl

/-- C5: when one category's provider call throws (or returns nothing), the
aggregate maps that category to the empty sequence; every other category
whose call succeeds keeps its (up to 3) results, the mapping still has all
5 categories, and every competitor whose call succeeds keeps its entry —
one category's failure never empties or aborts the aggregate. -/
theorem C5_category_isolation (oracle : SearchOracle) (data : AnalysisData)
    (now : String) (i : Fin 5)
    (hfail : oracle (categoryQueryAt data.nicho i) = Except.error () ∨
             oracle (categoryQueryAt data.nicho i) = Except.ok []) :
    (conductMarketResearchRun oracle data now).1.market_data.length = 5 ∧
    ((conductMarketResearchRun oracle data now).1.market_data.getD i.val
      ("", [])).2 = [] ∧
    (∀ j : Fin 5, j ≠ i → ∀ rs : List SearchResult,
        oracle (categoryQueryAt data.nicho j) = Except.ok rs →
        ((conductMarketResearchRun oracle data now).1.market_data.getD j.val
          ("", [])).2 = rs.take 3) ∧
    (∀ n : String, n ∈ (competitorNames data.concorrentes).take 3 →
        data.concorrentes ≠ "" → ∀ rs : List SearchResult,
        oracle (competitorQuery n data.nicho) = Except.ok rs →
        CompetitorInfo.mk n (rs.take 3) now ∈
          (conductMarketResearchRun oracle data now).1.competitor_data) := by
  refine ⟨rfl, ?_, ?_, ?_⟩
  · rw [market_data_getD]
    rcases hfail with hf | hf <;> simp [searchGoogle, hf]
  · intro j hj rs hrs
    rw [market_data_getD]
    simp [searchGoogle, hrs]
  · intro n hn hcne rs hrs
    simp only [conductMarketResearchRun, ne_eq, hcne, not_false_eq_true,
      if_true]
    have hval : (getCompetitorInfoRun oracle n data.nicho now).1 =
        CompetitorInfo.mk n (rs.take 3) now := by
      simp [getCompetitorInfoRun, searchGoogle, hrs]
    rw [← hval]
    exact List.mem_map_of_mem _ (List.mem_map_of_mem _ hn)

/-- Witness for C5: the trends query throws, the other categories and the
competitor keep their single hit. -/
theorem C5_category_isolation_witness :
    oracleFailTrends (categoryQueryAt "Fitness" 1) = Except.error () ∧
    ((conductMarketResearchRun oracleFailTrends dFitnessComp "T").1.market_data.getD
      1 ("", [])).2 = [] ∧
    ((conductMarketResearchRun oracleFailTrends dFitnessComp "T").1.market_data.getD
      0 ("", [])).2 = [r1] ∧
    CompetitorInfo.mk "Alfa" [r1] "T" ∈
      (conductMarketResearchRun oracleFailTrends dFitnessComp "T").1.competitor_data := by
  have h := C5_category_isolation oracleFailTrends dFitnessComp "T" 1
    (Or.inl rfl)
  exact ⟨rfl, h.2.1,
    h.2.2.1 0 (by decide) [r1] rfl,
    h.2.2.2 "Alfa" (by decide) (by decide) [r1] rfl⟩

/-- C9 (amended): on a successful LLM extraction the enrichment attaches a
research_metadata block whose data_quality is "high" exactly when the
market_data mapping is non-empty (it carries the 5 category keys even when
every category's result list is empty — not when any result was found) and
"limited" otherwise, together with the source and competitor counts; and
when the extracted object lacks insights_pesquisa, a minimal block
synthesized from the research data is added. -/
theorem C9_enrich_metadata_amended (fields : List (String × Json))
    (research : ResearchData) :
    (enrichAnalysis (Json.obj fields) research).get? "research_metadata" =
      some (researchMetadataObj research) ∧
    (researchMetadataObj research).get? "data_quality" =
      some (Json.str
        (if research.market_data.isEmpty then "limited" else "high")) ∧
    (researchMetadataObj research).get? "sources_consulted" =
      some (Json.num research.market_data.length) ∧
    (researchMetadataObj research).get? "competitors_analyzed" =
      some (Json.num research.competitor_data.length) ∧
    (hasKey fields "insights_pesquisa" = false →
      (enrichAnalysis (Json.obj fields) research).get? "insights_pesquisa" =
        some (synthInsights research)) := by
  refine ⟨?_, rfl, rfl, rfl, ?_⟩
  · simp only [enrichAnalysis]
    by_cases hk : hasKey
        (setKey fields "research_metadata" (researchMetadataObj research))
        "insights_pesquisa" = true
    · rw [if_pos hk]
      simp only [Json.get?]
      rw [find?_setKey_self]
      rfl
    · rw [if_neg hk]
      simp only [Json.get?]
      rw [find?_append_of_some _ _ _ _ (find?_setKey_self fields _ _)]
      rfl
  · intro h0
    simp only [enrichAnalysis]
    have hk : hasKey
        (setKey fields "research_metadata" (researchMetadataObj research))
        "insights_pesquisa" = false := by
      rw [hasKey_setKey_ne _ _ _ _ (by decide)]
      exact h0
    rw [if_neg (by simp [hk])]
    simp only [Json.get?]
    rw [find?_append_of_none _ _ _ (find?_none_of_hasKey_false _ _ hk)]
    rfl

/-- Witness for C9 on a one-field object missing insights_pesquisa. -/
theorem C9_enrich_metadata_witness :
    hasKey [("a", Json.num 1)] "insights_pesquisa" = false ∧
    (enrichAnalysis (Json.obj [("a", Json.num 1)]) rSample).get?
      "research_metadata" = some (researchMetadataObj rSample) ∧
    (enrichAnalysis (Json.obj [("a", Json.num 1)]) rSample).get?
      "insights_pesquisa" = some (synthInsights rSample) :=
  ⟨rfl, (C9_enrich_metadata_amended [("a", Json.num 1)] rSample).1,
   (C9_enrich_metadata_amended [("a", Json.num 1)] rSample).2.2.2.2 rfl⟩

/-- Counterexample for C9 as stated: a run in which every search returns no
hits still yields data_quality "high" (the market_data dict carries its 5
category keys and is truthy), though no market data was found. -/
theorem C9_data_quality_counterexample :
    (analyzeRun envEmptyResearch dFitness).1.getPath?
      ["research_metadata", "data_quality"] = some (Json.str "high") ∧
    ((conductMarketResearchRun envEmptyResearch.oracle dFitness
      "T").1.market_data.all (fun p => p.2.isEmpty)) = true :=
  ⟨rfl, rfl⟩

/-- C1 (amended): the orchestrator always returns a document; the fallback
always carries every required top-level key, and whenever the run does not
end as the enrichment of a truthy LLM extraction (no credential, transport
error, or failed/falsy extraction), the returned document carries every
required key. When the LLM returns a parseable truthy value, that value is
returned enriched and may lack required keys. -/
theorem C1_analyze_total_keys_amended (e : Env) (data : AnalysisData) :
    hasAllRequiredKeys (createFallbackAnalysis data e.time) = true ∧
    (hasAllRequiredKeys (analyzeRun e data).1 = true ∨
     ∃ j : Json, llmTruthyExtract e = some j ∧
       (analyzeRun e data).1 = enrichAnalysis j (researchOf e data)) := by
  refine ⟨rfl, ?_⟩
  by_cases hc : clientConfigured e = true
  · rcases hllm : e.llm with u | content
    · left
      simp only [analyzeRun]
      rw [if_pos hc]
      simp only [generateAiAnalysisRun, hllm]
      rfl
    · rcases hext : extractAndValidateJson content with _ | j
      · left
        simp only [analyzeRun]
        rw [if_pos hc]
        simp only [generateAiAnalysisRun, hllm, hext]
        rfl
      · by_cases ht : j.truthy = true
        · right
          refine ⟨j, ?_, ?_⟩
          · simp [llmTruthyExtract, hllm, hext, ht]
          · simp only [analyzeRun]
            rw [if_pos hc]
            simp only [generateAiAnalysisRun, hllm, hext, ht, if_true,
              researchOf]
        · left
          have htf : j.truthy = false := by simpa using ht
          simp only [analyzeRun]
          rw [if_pos hc]
          simp only [generateAiAnalysisRun, hllm, hext, htf,
            Bool.false_eq_true, if_false]
          rfl
  · left
    have hb : clientConfigured e = false := by simpa using hc
    simp only [analyzeRun, hb, Bool.false_eq_true, if_false]
    rfl

/-- Counterexample for C1 as stated: a configured client whose LLM answers
with the truthy object containing only a `foo` key yields a returned
document missing every required analysis key. -/
theorem C1_missing_keys_counterexample :
    clientConfigured envFooOnly = true ∧
    hasAllRequiredKeys (analyzeRun envFooOnly dFitness).1 = false ∧
    (analyzeRun envFooOnly dFitness).1.get? "escopo" = none :=
  ⟨rfl, rfl, rfl⟩

example : formatMoney 100000 = "R$ 100.000" := by rfl

example : formatMoney 900 = "R$ 900" := by rfl

example : formatMoney 500 = "R$ 500" := by rfl

example : parsePyFloat "500" = some (Dec.ofInt 500) := by rfl

example : parsePyFloat " 1.5 " = some ⟨15, 1⟩ := by rfl

example : parsePyFloat "abc" = none := by rfl

example : parsePyFloat "" = none := by rfl

example : pyint (Dec.mul (Dec.ofInt 500) ⟨18, 1⟩) = 900 := by decide

example :
    (createFallbackAnalysis dFitness "T").getPath?
      ["projecoes", "realista", "faturamento"] =
    some (Json.str "R$ 100.000") := by rfl

example :
    (createFallbackAnalysis dFitness "T").getPath? ["metricas", "ltv_medio"] =
    some (Json.str "R$ 900") := by rfl

example : hasAllRequiredKeys (createFallbackAnalysis dFitness "T") = true := by
  rfl

example : competitorNames "" = [] := by rfl

example : competitorNames "Alfa, Beta" = ["Alfa", "Beta"] := by rfl

example : competitorNames " , A, , B, C, D" = ["A", "B", "C", "D"] := by rfl

example : clientConfigured ⟨some "sk-t", fun _ => .ok [], .ok "", "T"⟩ = true := by
  rfl

example : clientConfigured ⟨some "invalid", fun _ => .ok [], .ok "", "T"⟩ = false := by
  rfl

example : parseJson ("42".toList) = some (Json.num 42) := by rfl

example : parseJson ("[1, 2]".toList) =
    some (Json.arr [Json.num 1, Json.num 2]) := by rfl

example : parseJson ("\x7b\"a\":1\x7d".toList) =
    some (Json.obj [("a", Json.num 1)]) := by rfl

example : extractAndValidateJson "noise \x7b\"a\":1\x7d trailing" =
    some (Json.obj [("a", Json.num 1)]) := by rfl

example : extractAndValidateJson "not json at all" = none := by rfl

example : extractAndValidateJson "\"\x7d\x7b\"" = none := by rfl

example : parseJson (pystrip ("\"\x7d\x7b\"".toList)) =
    some (Json.str "\x7d\x7b") := by rfl
